import Mathlib

/-!
Verification of the waterfuse flow-monitoring controller (waterfuse.c).

The shallow embedding below translates the globals and the control loop of
`main`, the interrupt handler `handleClick`, the signal handler cases that
touch controller state, and `readConfig`, into pure Lean functions.  One
iteration of the `while (1)` loop body becomes the function `tick`, which
takes the configuration, the current time `now`, the level of the reset
button, and the controller state, and returns the new state together with
the list of status records written by `writeState` during that iteration.
-/

namespace Waterfuse

/-- Configuration globals of waterfuse.c (lines 38-43): `clicks_per_litre`,
`max_litres`, `reset_period`, `time_limit`, `verbose`.  All are C `int`s. -/
structure Config where
  clicks_per_litre : Int
  max_litres : Int
  reset_period : Int
  time_limit : Int
  verbose : Int
deriving Repr, DecidableEq

/-- Built-in defaults: CLICKS_PER_LITRE 450, MAX_FLOW 200, RESET_PERIOD 600,
MAX_TIME 900, verbose 0. -/
def defaultConfig : Config :=
  { clicks_per_litre := 450, max_litres := 200, reset_period := 600,
    time_limit := 900, verbose := 0 }

/-- One `key value` line of the config file, as dispatched by the
`strcmp` chain in `readConfig` (waterfuse.c lines 76-86): recognized keys
update their field (`max_time` is given in minutes and stored multiplied by
60); any other key leaves the configuration unchanged. -/
def applyConfigLine (c : Config) (kv : String × Int) : Config :=
  if kv.1 = "reset_period" then { c with reset_period := kv.2 }
  else if kv.1 = "max_time" then { c with time_limit := kv.2 * 60 }
  else if kv.1 = "max_litres" then { c with max_litres := kv.2 }
  else if kv.1 = "clicks_per_litre" then { c with clicks_per_litre := kv.2 }
  else if kv.1 = "verbosity" then { c with verbose := kv.2 }
  else c

/-- `readConfig` (waterfuse.c lines 68-89): `none` models a missing or
unreadable config file (the `fopen` failure branch), in which case the
current values are retained; otherwise each parsed `key value` pair is
applied in order. -/
def readConfig (file : Option (List (String × Int))) (c : Config) : Config :=
  match file with
  | none => c
  | some lines => lines.foldl applyConfigLine c

/-- Controller state: the mutable globals of waterfuse.c (lines 30-37)
together with the relay output pin (`true` = HIGH = energized). -/
structure State where
  clicks : Nat
  reset : Nat
  triggered : Bool
  counting : Bool
  last_click_time : Int
  last_click_count : Nat
  first_click_time : Int
  total_clicks : Nat
  relay : Bool
deriving Repr, DecidableEq

/-- State on entry to the control loop: all counters zero (C globals are
zero-initialized) and the relay driven HIGH (waterfuse.c line 267). -/
def initState : State :=
  { clicks := 0, reset := 0, triggered := false, counting := false,
    last_click_time := 0, last_click_count := 0, first_click_time := 0,
    total_clicks := 0, relay := true }

/-- `handleClick` (waterfuse.c lines 45-48): the flow-meter interrupt
increments the click counter by one. -/
def handleClick (s : State) : State :=
  { s with clicks := s.clicks + 1 }

/-- `n` flow-meter pulses arriving between two loop iterations. -/
def injectClicks (n : Nat) (s : State) : State :=
  { s with clicks := s.clicks + n }

/-- The SIGUSR1 case of `signalHandler` (waterfuse.c line 154): `reset = 2`. -/
def sigUsr1 (s : State) : State :=
  { s with reset := 2 }

/-- The SIGCONT case of `signalHandler` (waterfuse.c lines 159-162):
drive the relay LOW and set `triggered = 1` (emergency stop). -/
def sigCont (s : State) : State :=
  { s with relay := false, triggered := true }

/-- Index into `reset_msg[3] = { "", "button", "signal" }` (line 192). -/
def resetMsg : Nat → String
  | 1 => "button"
  | 2 => "signal"
  | _ => ""

/-- Index into `stop_msg[3] = { "", "volume", "time" }` (line 193). -/
def stopMsg : Nat → String
  | 1 => "volume"
  | 2 => "time"
  | _ => ""

/-- The phase logic of the loop body: the `if (!triggered) { ... }` block of
waterfuse.c (lines 303-336), run after the reset block.  `seconds` is
`now - last_click_time` as read at the top of the iteration, `litres` is
`clicks / clicks_per_litre` as computed at line 285, and `nc` is the value
of `new_clicks` at this point (zeroed when the reset block ran). -/
def phaseStep (cfg : Config) (now seconds : Int) (litres nc : Nat)
    (s : State) : State × List String :=
  if s.triggered then (s, [])
  else if s.counting then
    if nc = 0 then
      if seconds > cfg.reset_period then
        ({ s with counting := false, clicks := 0, last_click_count := 0 }, [])
      else (s, [])
    else
      let s3 := { s with last_click_time := now }
      let seconds_from_first := s3.last_click_time - s3.first_click_time
      let r1 : Nat := if (litres : Int) > cfg.max_litres then 1 else 0
      let r2 : Nat := if seconds_from_first > cfg.time_limit then 2 else r1
      if r2 ≠ 0 then
        ({ s3 with triggered := true, relay := false },
          ["stopped\t" ++ stopMsg r2])
      else (s3, [])
  else
    if nc ≠ 0 then
      ({ s with counting := true, first_click_time := now,
                last_click_time := now }, [])
    else (s, [])

/-- One iteration of the `while (1)` loop of `main` (waterfuse.c lines
270-338).  `buttonLow` is `digitalRead(RESET_BUTTON) == 0`.  Returns the
state at the end of the iteration and the status records written by
`writeState` during it.  Faithful ordering: `seconds` and `new_clicks` are
computed from the old state, the baseline advances and `total_clicks`
accumulates (lines 280-284), `litres` is computed from the counter before
any reset (line 285), the button check may raise `reset = 1` (lines
287-289), the reset block (lines 290-302) clears the episode and zeroes
`new_clicks`, and the phase logic then runs on the result. -/
def tick (cfg : Config) (now : Int) (buttonLow : Bool) (s : State) :
    State × List String :=
  let seconds : Int := now - s.last_click_time
  let nc0 : Nat := s.clicks - s.last_click_count
  let s1 : State := { s with last_click_count := s.clicks,
                             total_clicks := s.total_clicks + nc0 }
  let litres : Nat := s1.clicks / cfg.clicks_per_litre.toNat
  let rflag : Nat := if s1.triggered && buttonLow then 1 else s1.reset
  if rflag ≠ 0 then
    let s2 : State :=
      { s1 with triggered := false, clicks := 0, counting := false,
                last_click_count := 0, last_click_time := now,
                first_click_time := now, reset := 0, relay := true }
    let p := phaseStep cfg now seconds litres 0 s2
    (p.1, ("started\t" ++ resetMsg rflag) :: p.2)
  else
    phaseStep cfg now seconds litres nc0 s1

/-- A run of loop iterations: each step `(n, t)` delivers `n` flow-meter
pulses and then executes one `tick` at time `t` with the reset button
released.  Status records are concatenated in order. -/
def runTicks (cfg : Config) (steps : List (Nat × Int)) (s : State) :
    State × List String :=
  steps.foldl
    (fun acc st =>
      let t := tick cfg st.2 false (injectClicks st.1 acc.1)
      (t.1, acc.2 ++ t.2))
    (s, [])

/-- States reachable by the control loop: the initial state followed by any
interleaving of loop iterations (with arbitrary configuration, clock value,
button level and pulse arrivals) and the asynchronous signal-handler cases
that mutate controller state (SIGUSR1, SIGCONT), delivered between
iterations. -/
inductive Reachable : State → Prop
  | init : Reachable initState
  | tick (cfg : Config) (now : Int) (btn : Bool) {s : State} :
      Reachable s → Reachable (tick cfg now btn s).1
  | pulse {s : State} : Reachable s → Reachable (handleClick s)
  | usr1 {s : State} : Reachable s → Reachable (sigUsr1 s)
  | cont {s : State} : Reachable s → Reachable (sigCont s)

/-- An atomic action on the pulse counter, at the granularity the control
loop and the interrupt handler use it in waterfuse.c:
`inc` is `handleClick` (`clicks++`, line 47); `read` is one iteration's
drain, `new_clicks = clicks - last_click_count; last_click_count = clicks;
total_clicks += new_clicks` (lines 281-283); `reset` is the counter zeroing
performed by the reset block (lines 292-294) and by the stall-reset branch
(lines 308-309): `clicks = 0; last_click_count = 0`. -/
inductive PulseOp
  | inc
  | read
  | reset
deriving Repr, DecidableEq

/-- The part of the controller state the pulse-counter protocol touches:
the raw counter `clicks`, the baseline `last_click_count`, and
`total_clicks`, which accumulates exactly the deltas returned by reads. -/
structure PulseState where
  clicks : Nat
  last_click_count : Nat
  total_clicks : Nat
deriving Repr, DecidableEq

/-- Execute one pulse-counter action. -/
def pulseStep (s : PulseState) : PulseOp → PulseState
  | .inc => { s with clicks := s.clicks + 1 }
  | .read =>
      { s with total_clicks := s.total_clicks + (s.clicks - s.last_click_count),
               last_click_count := s.clicks }
  | .reset => { s with clicks := 0, last_click_count := 0 }

/-- Execute a sequence of pulse-counter actions from the zeroed start state. -/
def pulseRun (ops : List PulseOp) : PulseState :=
  ops.foldl pulseStep { clicks := 0, last_click_count := 0, total_clicks := 0 }

/-- Number of interrupt increments in a sequence of pulse-counter actions. -/
def incCount (ops : List PulseOp) : Nat :=
  ops.countP (fun o => o = PulseOp.inc)

/-- Configuration used in the tie-break scenario: one click per litre,
`max_litres = 1`, `time_limit = 1` second. -/
def c1Config : Config :=
  { clicks_per_litre := 1, max_litres := 1, reset_period := 100,
    time_limit := 1, verbose := 0 }

/-- A mid-episode state for the tie-break scenario: counting, 5 episode
clicks (5 litres), first click at time 0. -/
def c1State : State :=
  { clicks := 5, reset := 0, triggered := false, counting := true,
    last_click_time := 9, last_click_count := 2, first_click_time := 0,
    total_clicks := 2, relay := true }

/-- Configuration of the volume-trip scenario: `max_litres = 10`,
`clicks_per_litre = 100` (generous time and stall limits). -/
def c2Config : Config :=
  { clicks_per_litre := 100, max_litres := 10, reset_period := 600,
    time_limit := 900, verbose := 0 }

/-- Configuration of the time-trip scenario: `time_limit = 60` seconds
(generous volume and stall limits). -/
def c8Config : Config :=
  { clicks_per_litre := 450, max_litres := 200, reset_period := 600,
    time_limit := 60, verbose := 0 }

/-- A Counting state with no pending pulses (counter equals baseline),
whose last click is long past: a stall. -/
def c5State : State :=
  { clicks := 7, reset := 0, triggered := false, counting := true,
    last_click_time := 0, last_click_count := 7, first_click_time := 0,
    total_clicks := 7, relay := true }

/-- A Triggered state (relay LOW) with a pending signal-initiated reset
(`reset = 2`). -/
def c6State : State :=
  { clicks := 7, reset := 2, triggered := true, counting := false,
    last_click_time := 0, last_click_count := 7, first_click_time := 0,
    total_clicks := 7, relay := false }

/-- A Counting state one minute into an episode, with a fresh pulse pending
and far from the volume threshold. -/
def c8State : State :=
  { clicks := 50, reset := 0, triggered := false, counting := true,
    last_click_time := 60, last_click_count := 49, first_click_time := 0,
    total_clicks := 50, relay := true }

end Waterfuse

namespace Waterfuse

/-- Claim C1, counterexample.  In a Counting tick with new pulses where both
thresholds are exceeded (5 litres > 1 and 10 seconds elapsed > 1), the
controller triggers, but the record written is `stopped\ttime`, not
`stopped\tvolume`: in waterfuse.c lines 315-320 the time check runs second
and overwrites `stop_reason`, so Time, not Volume, wins the tie. -/
theorem c1_counterexample :
    (c1State.clicks / c1Config.clicks_per_litre.toNat : Int) > c1Config.max_litres
    ∧ (10 : Int) - c1State.first_click_time > c1Config.time_limit
    ∧ (tick c1Config 10 false c1State).1.triggered = true
    ∧ (tick c1Config 10 false c1State).2 = ["stopped\ttime"]
    ∧ (tick c1Config 10 false c1State).2 ≠ ["stopped\tvolume"] := by
  decide

/-- Claim C1, amended.  If, on a single tick in the Counting phase with new
pulses, both the volume threshold (`litres > max_litres`) and the time
threshold (`elapsed > time_limit`) are exceeded, the controller triggers
and the reason recorded is Time: the time check is evaluated second and
overwrites the volume reason, so Time wins ties. -/
theorem c1_time_wins_ties (cfg : Config) (now : Int) (btn : Bool) (s : State)
    (htrig : s.triggered = false) (hcnt : s.counting = true)
    (hres : s.reset = 0) (hnc : s.last_click_count < s.clicks)
    (hvol : (s.clicks / cfg.clicks_per_litre.toNat : Int) > cfg.max_litres)
    (htime : now - s.first_click_time > cfg.time_limit) :
    (tick cfg now btn s).1.triggered = true
    ∧ (tick cfg now btn s).1.relay = false
    ∧ (tick cfg now btn s).2 = ["stopped\ttime"] := by
  obtain ⟨ck, rs, tg, cn, lct, lcc, fct, tc, rl⟩ := s
  simp only at htrig hcnt hres hnc hvol htime
  subst htrig hcnt hres
  have hnz : ¬ (ck - lcc = 0) := by omega
  simp [tick, phaseStep, hnz, htime, stopMsg]

/-- Claim C2, counterexample.  With `max_litres = 10` and
`clicks_per_litre = 100`, an episode that accumulates exactly 1001 clicks
(1000 on the first tick, 1 more on the second, no reset) does NOT trip:
`litres = 1001 / 100 = 10` and `10 > 10` is false, so the state stays
un-triggered and no status record is written, contradicting the claimed
`stopped\tvolume` transition. -/
theorem c2_counterexample :
    (runTicks c2Config [(1000, 1), (1, 2)] initState).1.clicks = 1001
    ∧ (runTicks c2Config [(1000, 1), (1, 2)] initState).1.counting = true
    ∧ (runTicks c2Config [(1000, 1), (1, 2)] initState).1.triggered = false
    ∧ (runTicks c2Config [(1000, 1), (1, 2)] initState).2 = [] := by
  decide

/-- Claim C2, amended.  With `max_litres = 10` and `clicks_per_litre = 100`,
the volume trip requires `litres > max_litres`, i.e. at least 1100 episode
clicks: an episode reaching 1100 clicks trips with `stopped\tvolume`,
while an episode reaching exactly 1000 clicks (with the threshold check
exercised by a fresh pulse) does not trip on volume. -/
theorem c2_volume_trip :
    (runTicks c2Config [(1000, 1), (100, 2)] initState).1.triggered = true
    ∧ (runTicks c2Config [(1000, 1), (100, 2)] initState).2 = ["stopped\tvolume"]
    ∧ (runTicks c2Config [(999, 1), (1, 2)] initState).1.clicks = 1000
    ∧ (runTicks c2Config [(999, 1), (1, 2)] initState).1.triggered = false
    ∧ (runTicks c2Config [(999, 1), (1, 2)] initState).2 = [] := by
  decide

/-- Pulse-counter conservation: along any sequence of increments and reads
(no reset), the baseline never exceeds the counter, and delivered total
plus pending pulses (counter minus baseline) grows by exactly the number
of increments. -/
theorem pulse_conserve (ops : List PulseOp) (h : PulseOp.reset ∉ ops)
    (s : PulseState) (hs : s.last_click_count ≤ s.clicks) :
    (ops.foldl pulseStep s).last_click_count ≤ (ops.foldl pulseStep s).clicks
    ∧ (ops.foldl pulseStep s).total_clicks
        + ((ops.foldl pulseStep s).clicks - (ops.foldl pulseStep s).last_click_count)
      = s.total_clicks + (s.clicks - s.last_click_count) + incCount ops := by
  induction ops generalizing s with
  | nil => exact ⟨hs, by simp [incCount]⟩
  | cons op rest ih =>
    simp only [List.mem_cons, not_or] at h
    obtain ⟨hop, hrest⟩ := h
    cases op with
    | inc =>
      obtain ⟨h1, h2⟩ := ih hrest { s with clicks := s.clicks + 1 } (by simp; omega)
      refine ⟨h1, ?_⟩
      simp only [List.foldl_cons, pulseStep] at h2 ⊢
      simp only [incCount, List.countP_cons] at h2 ⊢
      simp at h2 ⊢
      omega
    | read =>
      obtain ⟨h1, h2⟩ := ih hrest
        { s with total_clicks := s.total_clicks + (s.clicks - s.last_click_count),
                 last_click_count := s.clicks } (by simp)
      refine ⟨h1, ?_⟩
      simp only [List.foldl_cons, pulseStep] at h2 ⊢
      simp only [incCount, List.countP_cons] at h2 ⊢
      simp at h2 ⊢
      omega
    | reset => exact absurd rfl hop

/-- Claim C3, counterexample.  One interrupt increment, followed by the
counter zeroing done by the reset path, followed by a read: the pulse
occurred before the read, yet the sum of delivered deltas is 0, not 1 —
the reset and stall-reset paths discard pulses that arrived after the
previous read. -/
theorem c3_counterexample :
    incCount [PulseOp.inc, PulseOp.reset, PulseOp.read] = 1
    ∧ (pulseRun [PulseOp.inc, PulseOp.reset, PulseOp.read]).total_clicks = 0 := by
  decide

/-- Claim C3, amended.  For every interleaving of N interrupt increments
with control-loop reads that contains no reset or stall-reset counter
zeroing, after a final draining read the sum of delivered deltas
(accumulated in `total_clicks`) is exactly N: no pulse is lost and none is
counted twice. -/
theorem c3_no_lost_pulses (ops : List PulseOp) (h : PulseOp.reset ∉ ops) :
    (pulseRun (ops ++ [PulseOp.read])).total_clicks = incCount ops := by
  have h' : PulseOp.reset ∉ ops ++ [PulseOp.read] := by
    simp only [List.mem_append, List.mem_singleton, not_or]
    exact ⟨h, by decide⟩
  obtain ⟨h1, h2⟩ := pulse_conserve (ops ++ [PulseOp.read]) h'
    { clicks := 0, last_click_count := 0, total_clicks := 0 } (by simp)
  have hfin : (pulseRun (ops ++ [PulseOp.read])).last_click_count
      = (pulseRun (ops ++ [PulseOp.read])).clicks := by
    simp [pulseRun, List.foldl_append, pulseStep]
  have hcnt : incCount (ops ++ [PulseOp.read]) = incCount ops := by
    simp [incCount, List.countP_append]
  simp only [pulseRun] at h2 hfin
  simp only [pulseRun]
  omega

/-- Witness for the amended Claim C3 at a concrete interleaving. -/
theorem c3_no_lost_pulses_witness :
    (pulseRun ([PulseOp.inc, PulseOp.read, PulseOp.inc] ++ [PulseOp.read])).total_clicks
      = incCount [PulseOp.inc, PulseOp.read, PulseOp.inc] :=
  c3_no_lost_pulses [PulseOp.inc, PulseOp.read, PulseOp.inc] (by decide)

/-- Claim C7.  Config parsing maps each recognized key to its field, with
`max_time` given in minutes and stored multiplied by 60; an unrecognized
key leaves every field unchanged; and a missing or unreadable config file
leaves the configuration (the built-in defaults) unchanged. -/
theorem c7_readConfig_spec (c : Config) (v : Int) (k : String)
    (hk : k ≠ "reset_period" ∧ k ≠ "max_time" ∧ k ≠ "max_litres" ∧
          k ≠ "clicks_per_litre" ∧ k ≠ "verbosity") :
    readConfig none c = c
    ∧ applyConfigLine c ("reset_period", v) = { c with reset_period := v }
    ∧ applyConfigLine c ("max_time", v) = { c with time_limit := v * 60 }
    ∧ applyConfigLine c ("max_litres", v) = { c with max_litres := v }
    ∧ applyConfigLine c ("clicks_per_litre", v) = { c with clicks_per_litre := v }
    ∧ applyConfigLine c ("verbosity", v) = { c with verbose := v }
    ∧ applyConfigLine c (k, v) = c := by
  obtain ⟨h1, h2, h3, h4, h5⟩ := hk
  refine ⟨rfl, rfl, rfl, rfl, rfl, rfl, ?_⟩
  simp only [applyConfigLine]
  rw [if_neg h1, if_neg h2, if_neg h3, if_neg h4, if_neg h5]

/-- The phase logic preserves the relay/phase coupling: if the relay level
equals the negation of the `triggered` flag on entry, it still does on
exit (the only branch touching either sets both: relay LOW with
`triggered = 1`). -/
theorem phaseStep_relay (cfg : Config) (now seconds : Int) (litres nc : Nat)
    (s : State) (h : s.relay = !s.triggered) :
    (phaseStep cfg now seconds litres nc s).1.relay
      = !(phaseStep cfg now seconds litres nc s).1.triggered := by
  obtain ⟨ck, rs, tg, cn, lct, lcc, fct, tc, rl⟩ := s
  simp only at h
  subst h
  cases tg <;> cases cn <;>
    simp only [phaseStep] <;> split_ifs <;> simp

/-- One loop iteration preserves the relay/phase coupling: the reset block
energizes the relay and clears `triggered` together, and the phase logic
preserves the coupling. -/
theorem tick_relay (cfg : Config) (now : Int) (btn : Bool) (s : State)
    (h : s.relay = !s.triggered) :
    (tick cfg now btn s).1.relay = !(tick cfg now btn s).1.triggered := by
  obtain ⟨ck, rs, tg, cn, lct, lcc, fct, tc, rl⟩ := s
  simp only at h
  subst h
  unfold tick
  dsimp only
  split_ifs <;> exact phaseStep_relay _ _ _ _ _ _ rfl

/-- Claim C4.  In every state reachable by the control loop (including
asynchronous SIGUSR1/SIGCONT deliveries and pulse arrivals between
iterations), a Triggered phase has the relay de-energized (LOW) and an
Idle or Counting phase (`triggered = 0`) has the relay energized (HIGH);
at tick boundaries there is no exception, as the tick applying a trigger
writes the relay before it ends. -/
theorem c4_relay_matches_phase (s : State) (h : Reachable s) :
    (s.triggered = true → s.relay = false)
    ∧ (s.triggered = false → s.relay = true) := by
  have key : s.relay = !s.triggered := by
    induction h with
    | init => rfl
    | tick cfg now btn hr ih => exact tick_relay cfg now btn _ ih
    | pulse hr ih => exact ih
    | usr1 hr ih => exact ih
    | cont hr ih => rfl
  constructor <;> intro ht <;> rw [ht] at key <;> simpa using key

/-- Witness for Claim C4 at the initial state. -/
theorem c4_relay_matches_phase_witness :
    (initState.triggered = true → initState.relay = false)
    ∧ (initState.triggered = false → initState.relay = true) :=
  c4_relay_matches_phase initState Reachable.init

/-- Claim C5.  A Counting tick with zero pulse delta whose last click is
more than `reset_period` ago silently returns to the Idle baseline
(`counting` off, `triggered` still off) and clears the episode's
accumulated clicks and baseline, while the relay is left unchanged and no
status record is written. -/
theorem c5_stall_reset_silent (cfg : Config) (now : Int) (btn : Bool)
    (s : State) (htrig : s.triggered = false) (hcnt : s.counting = true)
    (hres : s.reset = 0) (hnc : s.clicks = s.last_click_count)
    (hstall : now - s.last_click_time > cfg.reset_period) :
    (tick cfg now btn s).1.triggered = false
    ∧ (tick cfg now btn s).1.counting = false
    ∧ (tick cfg now btn s).1.clicks = 0
    ∧ (tick cfg now btn s).1.last_click_count = 0
    ∧ (tick cfg now btn s).1.relay = s.relay
    ∧ (tick cfg now btn s).2 = [] := by
  obtain ⟨ck, rs, tg, cn, lct, lcc, fct, tc, rl⟩ := s
  simp only at htrig hcnt hres hnc hstall
  subst htrig hcnt hres hnc
  simp [tick, phaseStep, hstall]

/-- Witness for Claim C5: a stalled Counting state at the defaults, 700
seconds after its last click. -/
theorem c5_stall_reset_silent_witness :
    (tick defaultConfig 700 false c5State).1.triggered = false
    ∧ (tick defaultConfig 700 false c5State).1.counting = false
    ∧ (tick defaultConfig 700 false c5State).1.clicks = 0
    ∧ (tick defaultConfig 700 false c5State).1.last_click_count = 0
    ∧ (tick defaultConfig 700 false c5State).1.relay = c5State.relay
    ∧ (tick defaultConfig 700 false c5State).2 = [] :=
  c5_stall_reset_silent defaultConfig 700 false c5State rfl rfl rfl rfl
    (by decide)

/-- Claim C6.  On a tick in the Triggered phase with a pending reset event
(`reset = 1` for button, `2` for signal) or with the reset button reading
low, the controller returns to Idle: episode counters cleared, relay
energized (HIGH), and a `started` record written whose reason is the
requesting source (`button` or `signal`; a low button overrides a pending
signal reset). -/
theorem c6_reset_restores_flow (cfg : Config) (now : Int) (btn : Bool)
    (s : State) (htrig : s.triggered = true)
    (hsrc : btn = true ∨ s.reset = 1 ∨ s.reset = 2) :
    (tick cfg now btn s).1.triggered = false
    ∧ (tick cfg now btn s).1.counting = false
    ∧ (tick cfg now btn s).1.clicks = 0
    ∧ (tick cfg now btn s).1.last_click_count = 0
    ∧ (tick cfg now btn s).1.relay = true
    ∧ (tick cfg now btn s).2
        = ["started\t" ++ (if btn then "button" else resetMsg s.reset)] := by
  obtain ⟨ck, rs, tg, cn, lct, lcc, fct, tc, rl⟩ := s
  simp only at htrig hsrc
  subst htrig
  rcases hsrc with hb | hr | hr
  · subst hb
    simp [tick, phaseStep, resetMsg]
  · subst hr
    cases btn <;> simp [tick, phaseStep, resetMsg]
  · subst hr
    cases btn <;> simp [tick, phaseStep, resetMsg]

/-- Witness for Claim C6: a Triggered state with a pending signal reset and
the button released. -/
theorem c6_reset_restores_flow_witness :
    (tick defaultConfig 700 false c6State).1.triggered = false
    ∧ (tick defaultConfig 700 false c6State).1.counting = false
    ∧ (tick defaultConfig 700 false c6State).1.clicks = 0
    ∧ (tick defaultConfig 700 false c6State).1.last_click_count = 0
    ∧ (tick defaultConfig 700 false c6State).1.relay = true
    ∧ (tick defaultConfig 700 false c6State).2
        = ["started\t" ++ (if false then "button" else resetMsg c6State.reset)] :=
  c6_reset_restores_flow defaultConfig 700 false c6State rfl (by decide)

/-- Claim C8.  With `time_limit = 60` seconds, on a Counting tick with new
pulses whose volume is under threshold, the controller transitions to
Triggered with a `stopped\ttime` record exactly when more than 60 seconds
have elapsed since `first_click_time` — so the trip fires on the tick at
which 61 seconds are reached, and not before. -/
theorem c8_time_trip (cfg : Config) (now : Int) (btn : Bool) (s : State)
    (hlimit : cfg.time_limit = 60) (htrig : s.triggered = false)
    (hcnt : s.counting = true) (hres : s.reset = 0)
    (hnc : s.last_click_count < s.clicks)
    (hvol : (s.clicks / cfg.clicks_per_litre.toNat : Int) ≤ cfg.max_litres) :
    ((tick cfg now btn s).1.triggered = true
      ↔ 60 < now - s.first_click_time)
    ∧ ((tick cfg now btn s).2 = ["stopped\ttime"]
      ↔ 60 < now - s.first_click_time) := by
  obtain ⟨ck, rs, tg, cn, lct, lcc, fct, tc, rl⟩ := s
  simp only at htrig hcnt hres hnc hvol
  subst htrig hcnt hres
  have hnz : ¬ (ck - lcc = 0) := by omega
  simp only [tick, phaseStep]
  set lit : Nat := ck / cfg.clicks_per_litre.toNat with hlit
  have hnvol : ¬ ((lit : Int) > cfg.max_litres) := not_lt.mpr hvol
  by_cases hT : 60 < now - fct
  · simp [hnz, hnvol, hlimit, hT, stopMsg]
  · simp [hnz, hnvol, hlimit, hT, stopMsg]

/-- Witness for Claim C8: one minute into an episode with a fresh pulse,
volume far under threshold, evaluated at `now = 61`. -/
theorem c8_time_trip_witness :
    ((tick c8Config 61 false c8State).1.triggered = true
      ↔ 60 < (61 : Int) - c8State.first_click_time)
    ∧ ((tick c8Config 61 false c8State).2 = ["stopped\ttime"]
      ↔ 60 < (61 : Int) - c8State.first_click_time) :=
  c8_time_trip c8Config 61 false c8State rfl rfl rfl rfl (by decide)
    (by decide)

/-- Claim C9.  The threshold checks run only on ticks with a strictly
positive pulse delta: a Counting tick whose counter equals its baseline
never triggers and writes no status record, no matter how much time has
elapsed since `first_click_time`. -/
theorem c9_no_trigger_without_pulses (cfg : Config) (now : Int) (btn : Bool)
    (s : State) (htrig : s.triggered = false) (hcnt : s.counting = true)
    (hres : s.reset = 0) (hnc : s.clicks = s.last_click_count) :
    (tick cfg now btn s).1.triggered = false
    ∧ (tick cfg now btn s).2 = [] := by
  obtain ⟨ck, rs, tg, cn, lct, lcc, fct, tc, rl⟩ := s
  simp only at htrig hcnt hres hnc
  subst htrig hcnt hres hnc
  simp only [tick, phaseStep]
  split_ifs <;> simp_all

/-- Witness for Claim C9: a quiescent Counting state evaluated  far past
every limit (`now = 100000`). -/
theorem c9_no_trigger_without_pulses_witness :
    (tick defaultConfig 100000 false c5State).1.triggered = false
    ∧ (tick defaultConfig 100000 false c5State).2 = [] :=
  c9_no_trigger_without_pulses defaultConfig 100000 false c5State rfl rfl
    rfl rfl

/-- Claim C10.  A pending reset event (`reset = 1` or `2`) is consumed on
the next tick in any phase: the counter, baseline and episode flags are
cleared, the timestamps rebased to `now`, the relay energized, and a
single `started` record written — in particular no `stopped` record, so a
tick that consumes a reset never also triggers (the reset zeroes the
delta before the phase logic runs). -/
theorem c10_reset_any_phase (cfg : Config) (now : Int) (btn : Bool)
    (s : State) (hres : s.reset = 1 ∨ s.reset = 2) :
    (tick cfg now btn s).1
      = { s with triggered := false, clicks := 0, counting := false,
                 reset := 0, last_click_count := 0, last_click_time := now,
                 first_click_time := now, relay := true,
                 total_clicks := s.total_clicks + (s.clicks - s.last_click_count) }
    ∧ (tick cfg now btn s).2
      = ["started\t" ++ resetMsg (if s.triggered && btn then 1 else s.reset)] := by
  obtain ⟨ck, rs, tg, cn, lct, lcc, fct, tc, rl⟩ := s
  simp only at hres
  rcases hres with hr | hr
  · subst hr
    cases tg <;> cases btn <;> simp [tick, phaseStep, resetMsg]
  · subst hr
    cases tg <;> cases btn <;> simp [tick, phaseStep, resetMsg]

/-- Witness for Claim C10: consuming a pending signal reset. -/
theorem c10_reset_any_phase_witness :
    (tick defaultConfig 700 false c6State).1
      = { c6State with triggered := false, clicks := 0, counting := false,
                       reset := 0, last_click_count := 0,
                       last_click_time := 700, first_click_time := 700,
                       relay := true,
                       total_clicks := c6State.total_clicks
                         + (c6State.clicks - c6State.last_click_count) }
    ∧ (tick defaultConfig 700 false c6State).2
      = ["started\t"
          ++ resetMsg (if c6State.triggered && false then 1 else c6State.reset)] :=
  c10_reset_any_phase defaultConfig 700 false c6State (by decide)

/-- Witness for the amended Claim C1 at the tie-break scenario. -/
theorem c1_time_wins_ties_witness :
    (tick c1Config 10 false c1State).1.triggered = true
    ∧ (tick c1Config 10 false c1State).1.relay = false
    ∧ (tick c1Config 10 false c1State).2 = ["stopped\ttime"] :=
  c1_time_wins_ties c1Config 10 false c1State rfl rfl rfl (by decide)
    (by decide) (by decide)

/-- Witness for Claim C7 at the defaults, value 5, and the unknown key
`pressure`. -/
theorem c7_readConfig_spec_witness :
    readConfig none defaultConfig = defaultConfig
    ∧ applyConfigLine defaultConfig ("reset_period", 5)
        = { defaultConfig with reset_period := 5 }
    ∧ applyConfigLine defaultConfig ("max_time", 5)
        = { defaultConfig with time_limit := 5 * 60 }
    ∧ applyConfigLine defaultConfig ("max_litres", 5)
        = { defaultConfig with max_litres := 5 }
    ∧ applyConfigLine defaultConfig ("clicks_per_litre", 5)
        = { defaultConfig with clicks_per_litre := 5 }
    ∧ applyConfigLine defaultConfig ("verbosity", 5)
        = { defaultConfig with verbose := 5 }
    ∧ applyConfigLine defaultConfig ("pressure", 5) = defaultConfig :=
  c7_readConfig_spec defaultConfig 5 "pressure" (by decide)

end Waterfuse
